import Mathlib

/-!
Verification of the Resolution & Allocation Engine of the QRwithURL
repository: a shallow embedding of the request classifier, shortcode
generation/validation, the allocator (including the shortest-path
auto-creation), the resolver, the rate limiter and the click-recording
path, with theorems settling the specification claims.

The D1 `urls` table is modelled as a list of rows in insertion order;
`AUTOINCREMENT` ids are modelled by the current length of the table.
SQL timestamps are modelled as naturals measured on the store clock.
-/

-- ===========================================================================
-- Data model (schema.sql, `urls` table)
-- ===========================================================================

/-- One row of the `urls` table (schema.sql). -/
structure UrlRow where
  rowId : Nat
  user_id : Option String
  shortcode : String
  original_url : String
  subdomain : Option String
  expires_at : Option Nat
  deriving DecidableEq, Repr

/-- The `urls` table in insertion order. -/
abbrev UrlDb := List UrlRow

/-- `COALESCE(subdomain, '')` from schema.sql and the uniqueness queries:
an absent subdomain is normalized to the empty string. -/
def normSubdomain (s : Option String) : String := s.getD ""

/-- The unique index `idx_urls_subdomain_shortcode` of schema.sql:
no two rows share the pair `(COALESCE(subdomain, ''), shortcode)`. -/
def uniqueIndexOk (db : UrlDb) : Prop :=
  db.Pairwise (fun r s =>
    ¬(normSubdomain r.subdomain = normSubdomain s.subdomain ∧ r.shortcode = s.shortcode))

/-- The only store-level insert failure the code distinguishes: D1 reports
`UNIQUE constraint failed` when the unique index rejects the row. -/
inductive D1Error where
  | uniqueConstraintFailed
  deriving DecidableEq, Repr

/-- A plain `INSERT INTO urls` under the unique index
`idx_urls_subdomain_shortcode`: the insert fails with a uniqueness error
when some row already holds the normalized `(subdomain, shortcode)` pair,
and otherwise appends the row (the id modelling `AUTOINCREMENT`). -/
def insertUrl (db : UrlDb) (user_id : Option String) (shortcode original_url : String)
    (subdomain : Option String) (expires_at : Option Nat) : Except D1Error UrlDb :=
  if db.any (fun r =>
      normSubdomain r.subdomain == normSubdomain subdomain && r.shortcode == shortcode)
  then Except.error D1Error.uniqueConstraintFailed
  else Except.ok (db ++ [⟨db.length, user_id, shortcode, original_url, subdomain, expires_at⟩])

/-- `SELECT COUNT(*) FROM urls WHERE user_id = ?`. -/
def countByUser (db : UrlDb) (userId : String) : Nat :=
  (db.filter (fun r => r.user_id == some userId)).length

/-- The conditional insert of `resolveShortestUrl` (qr-shortest.ts):
`INSERT INTO urls ... SELECT ?, ?, ?, NULL WHERE (SELECT COUNT(*) FROM urls
WHERE user_id = ?) < ?`.  The count predicate is re-evaluated inside the
same atomic statement; a false predicate inserts nothing and reports zero
changes, a true predicate attempts the insert under the unique index. -/
def insertIfUnderQuota (db : UrlDb) (userId : String) (shortcode original_url : String)
    (maxUrls : Nat) : Except D1Error (UrlDb × Nat) :=
  if countByUser db userId < maxUrls then
    match insertUrl db (some userId) shortcode original_url none none with
    | Except.ok db' => Except.ok (db', 1)
    | Except.error e => Except.error e
  else Except.ok (db, 0)

-- ===========================================================================
-- Shortcode generation (shortcode.ts)
-- ===========================================================================

/-- `CHARSET` of shortcode.ts: 62 characters. -/
def CHARSET : String :=
  "abcdefghijklmnopqrstuvwxyzABCDEFGHIJKLMNOPQRSTUVWXYZ0123456789"

/-- `AUTO_LENGTH` of shortcode.ts. -/
def AUTO_LENGTH : Nat := 6

/-- `MAX_COLLISION_RETRIES` of shortcode.ts. -/
def MAX_COLLISION_RETRIES : Nat := 5

/-- `generateShortcode` of shortcode.ts, with the output of
`crypto.getRandomValues` (six bytes, each in 0..255) taken as input:
each byte indexes `CHARSET` modulo its length. -/
def generateShortcode (randomBytes : List Nat) : String :=
  String.mk ((randomBytes.take AUTO_LENGTH).map
    (fun b => CHARSET.toList.getD (b % CHARSET.toList.length) 'a'))

/-- `checkShortcodeExists` of shortcode.ts:
`SELECT 1 FROM urls WHERE COALESCE(subdomain, '') = COALESCE(?, '') AND
shortcode = ? LIMIT 1`. -/
def checkShortcodeExists (db : UrlDb) (shortcode : String) (subdomain : Option String) : Bool :=
  db.any (fun r =>
    normSubdomain r.subdomain == normSubdomain subdomain && r.shortcode == shortcode)

/-- The retry loop of `generateUniqueShortcode`: `attempt` counts calls to the
random source, `fuel` the remaining retries out of `MAX_COLLISION_RETRIES`. -/
def generateUniqueAux (db : UrlDb) (subdomain : Option String) (rnd : Nat → List Nat) :
    Nat → Nat → Option String
  | _, 0 => none
  | attempt, fuel + 1 =>
    let candidate := generateShortcode (rnd attempt)
    if checkShortcodeExists db candidate subdomain then
      generateUniqueAux db subdomain rnd (attempt + 1) fuel
    else
      some candidate

/-- `generateUniqueShortcode` of shortcode.ts, with the random source modelled
as a map from attempt number to the byte array drawn on that attempt:
up to `MAX_COLLISION_RETRIES` candidates are generated, each checked for
collision in the target scope; exhaustion yields `none`. -/
def generateUniqueShortcode (db : UrlDb) (subdomain : Option String)
    (rnd : Nat → List Nat) : Option String :=
  generateUniqueAux db subdomain rnd 0 MAX_COLLISION_RETRIES

-- ===========================================================================
-- Request classifier (workers/redirect.ts)
-- ===========================================================================

/-- `RESERVED_SUBDOMAINS` of workers/redirect.ts. -/
def RESERVED_SUBDOMAINS : List String := ["app", "api", "www"]

/-- `RESERVED_PATHS` of workers/redirect.ts. -/
def RESERVED_PATHS : List String :=
  ["login", "signup", "dashboard", "api", "assets", "favicon.ico"]

/-- JavaScript `pathname.split("/")` at the character level: cut the character
list at every slash, keeping (possibly empty) pieces. -/
def splitSlash : List Char → List Char → List String
  | [], acc => [String.mk acc.reverse]
  | '/' :: rest, acc => String.mk acc.reverse :: splitSlash rest []
  | c :: rest, acc => splitSlash rest (c :: acc)

/-- `url.pathname.split("/").filter(Boolean)` of `parseShortUrl`. -/
def pathSegmentsOf (pathname : String) : List String :=
  (splitSlash pathname.toList []).filter (fun s => s ≠ "")

/-- The first nonempty path segment, used to state claims about requests
whose leading segment is a given identifier. -/
def firstSegment (pathname : String) : Option String :=
  (pathSegmentsOf pathname).head?

/-- JavaScript `s.endsWith(t)`, at the character level. -/
def strEndsWith (s t : String) : Bool :=
  decide (t.toList.length ≤ s.toList.length) &&
    s.toList.drop (s.toList.length - t.toList.length) == t.toList

/-- JavaScript `s.slice(0, n)` for a nonnegative bound, at the character
level. -/
def strTake (s : String) (n : Nat) : String := String.mk (s.toList.take n)

/-- The parse result of `parseShortUrl` (workers/redirect.ts):
`subdomain = none` is the short (global) format. -/
structure ParsedShortUrl where
  shortcode : String
  subdomain : Option String
  deriving DecidableEq, Repr

/-- `extractSubdomain` of workers/redirect.ts. -/
def extractSubdomain (hostname rootDomain : String) : Option String :=
  if hostname = "localhost" ∨ hostname = "127.0.0.1" then none
  else if hostname = rootDomain then none
  else if strEndsWith hostname ("." ++ rootDomain) then
    some (strTake hostname (hostname.toList.length - rootDomain.toList.length - 1))
  else none

/-- `parseShortUrl` of workers/redirect.ts, over the request hostname and
pathname and the configured root domain. -/
def parseShortUrl (hostname pathname rootDomain : String) : Option ParsedShortUrl :=
  match pathSegmentsOf pathname with
  | [] => none
  | shortcode :: _ =>
    if shortcode ∈ RESERVED_PATHS then none
    else
      let subdomain := extractSubdomain hostname rootDomain
      let isRootDomain := hostname = rootDomain ∨ hostname = "localhost"
      let isOurSubdomain := subdomain.isSome ∧ strEndsWith hostname ("." ++ rootDomain) = true
      if ¬isRootDomain ∧ ¬isOurSubdomain then none
      else if (match subdomain with
               | some s => RESERVED_SUBDOMAINS.contains s
               | none => false) then none
      else some ⟨shortcode, subdomain⟩

/-- The request classifier: the method guard of `handleRedirect`
(only GET is eligible) composed with `parseShortUrl`. -/
def classifyRequest (method hostname pathname rootDomain : String) : Option ParsedShortUrl :=
  if method ≠ "GET" then none
  else parseShortUrl hostname pathname rootDomain

/-- Reference classifier following the words of the claim: not a lookup when
the method is not GET, the path has no segments, the first segment is
reserved, the host is neither exactly the root domain (or the
local-development alias `localhost`) nor ends in `.<rootDomain>`, or the
derived partition label is reserved; otherwise the identifier is the first
segment, with no partition for an exact root-domain (or alias) host and
with the leading label (the part of the host before `.<rootDomain>`) as
partition otherwise. -/
def specClassify (method hostname pathname rootDomain : String) : Option ParsedShortUrl :=
  if method ≠ "GET" then none
  else
    match pathSegmentsOf pathname with
    | [] => none
    | c :: _ =>
      if c ∈ RESERVED_PATHS then none
      else if hostname = rootDomain ∨ hostname = "localhost" then some ⟨c, none⟩
      else if strEndsWith hostname ("." ++ rootDomain) then
        let label := strTake hostname (hostname.toList.length - rootDomain.toList.length - 1)
        if label ∈ RESERVED_SUBDOMAINS then none else some ⟨c, some label⟩
      else none

/-- The reference classifier amended as the code forces: the host
`127.0.0.1` is a second local-development special case of partition
extraction, so a host equal to `127.0.0.1` never yields a partition and is
a lookup only when it is exactly the configured root domain. -/
def specClassifyAmended (method hostname pathname rootDomain : String) : Option ParsedShortUrl :=
  if method ≠ "GET" then none
  else
    match pathSegmentsOf pathname with
    | [] => none
    | c :: _ =>
      if c ∈ RESERVED_PATHS then none
      else if hostname = rootDomain ∨ hostname = "localhost" then some ⟨c, none⟩
      else if hostname ≠ "127.0.0.1" ∧ strEndsWith hostname ("." ++ rootDomain) = true then
        let label := strTake hostname (hostname.toList.length - rootDomain.toList.length - 1)
        if label ∈ RESERVED_SUBDOMAINS then none else some ⟨c, some label⟩
      else none

-- ===========================================================================
-- Resolver (workers/redirect.ts, lookupUrl)
-- ===========================================================================

/-- The expiration disjunct of the lookup query:
`expires_at IS NULL OR expires_at > datetime('now')`, with `now` the store
clock. -/
def expiresOk (r : UrlRow) (now : Nat) : Bool :=
  match r.expires_at with
  | none => true
  | some t => decide (now < t)

/-- `lookupUrl` of workers/redirect.ts: the first row matching the exact
identifier and partition whose expiration is absent or strictly in the
future, projected to `(id, original_url)`.  The two branches mirror the two
prepared statements (`subdomain IS NULL` versus `subdomain = ?`). -/
def lookupUrl (db : UrlDb) (shortcode : String) (subdomain : Option String)
    (now : Nat) : Option (Nat × String) :=
  let row : Option UrlRow :=
    match subdomain with
    | none => db.find? (fun r =>
        r.subdomain == (none : Option String) && r.shortcode == shortcode && expiresOk r now)
    | some sd => db.find? (fun r =>
        r.subdomain == some sd && r.shortcode == shortcode && expiresOk r now)
  row.map (fun r => (r.rowId, r.original_url))

/-- `lookupUrl` as a store operation: it issues a single SELECT, which
leaves the table unchanged, so the state component is the input table. -/
def lookupUrlOp (db : UrlDb) (shortcode : String) (subdomain : Option String)
    (now : Nat) : Option (Nat × String) × UrlDb :=
  (lookupUrl db shortcode subdomain now, db)

-- ===========================================================================
-- Custom shortcode validation (shortcode.ts)
-- ===========================================================================

/-- `MIN_CUSTOM_LENGTH` of shortcode.ts. -/
def MIN_CUSTOM_LENGTH : Nat := 3

/-- `MAX_CUSTOM_LENGTH` of shortcode.ts. -/
def MAX_CUSTOM_LENGTH : Nat := 30

/-- `RESERVED_SHORTCODES` of shortcode.ts. -/
def RESERVED_SHORTCODES : List String :=
  ["login", "signup", "dashboard", "api", "assets", "favicon", "robots",
   "sitemap", "admin", "help", "support", "about", "terms", "privacy"]

/-- The whitespace class removed by JavaScript `trim`, restricted to the
ASCII whitespace characters (the only ones the call sites can produce). -/
def isJsWhitespace (c : Char) : Bool :=
  c == ' ' || c == '\t' || c == '\n' || c == '\r' || c == '\x0b' || c == '\x0c'

/-- JavaScript `s.trim()` at the character level: drop whitespace from both
ends. -/
def strTrim (s : String) : String :=
  String.mk (((s.toList.dropWhile isJsWhitespace).reverse.dropWhile isJsWhitespace).reverse)

/-- JavaScript `toLowerCase` on one character, for the ASCII range the
validator distinguishes. -/
def charToLower (c : Char) : Char :=
  if 'A' ≤ c ∧ c ≤ 'Z' then Char.ofNat (c.toNat + 32) else c

/-- JavaScript `s.toLowerCase()` at the character level. -/
def strToLower (s : String) : String := String.mk (s.toList.map charToLower)

/-- `shortcode.trim().toLowerCase()`, the cleaning step of
`validateCustomShortcode`. -/
def cleanedOf (s : String) : String := strToLower (strTrim s)

/-- The character class `[a-z0-9]` of `CUSTOM_SHORTCODE_PATTERN`. -/
def isLowerAlnumChar (c : Char) : Bool :=
  ('a' ≤ c && c ≤ 'z') || ('0' ≤ c && c ≤ '9')

/-- The character class `[a-z0-9-]` of `CUSTOM_SHORTCODE_PATTERN`. -/
def isPatternBodyChar (c : Char) : Bool := isLowerAlnumChar c || c == '-'

/-- The tail `[a-z0-9-]*[a-z0-9]` of `CUSTOM_SHORTCODE_PATTERN`. -/
def patternTail : List Char → Bool
  | [] => false
  | [c] => isLowerAlnumChar c
  | c :: cs => isPatternBodyChar c && patternTail cs

/-- `CUSTOM_SHORTCODE_PATTERN.test`, the anchored regular expression
`[a-z0-9]([a-z0-9-]*[a-z0-9])?` of shortcode.ts: lowercase letters, digits
and hyphens, starting and ending with a letter or digit. -/
def matchesCustomPattern (s : String) : Bool :=
  match s.toList with
  | [] => false
  | [c] => isLowerAlnumChar c
  | c :: cs => isLowerAlnumChar c && patternTail cs

/-- JavaScript `s.includes("--")`: two consecutive hyphens occur. -/
def containsDoubleHyphen : List Char → Bool
  | [] => false
  | [_] => false
  | a :: b :: rest => (a == '-' && b == '-') || containsDoubleHyphen (b :: rest)

/-- `ShortcodeValidationResult` of shortcode.ts. -/
structure ShortcodeValidationResult where
  isValid : Bool
  error : Option String
  deriving DecidableEq, Repr

/-- `validateCustomShortcode` of shortcode.ts: clean, then apply the format
rules in source order, first failure winning, with the verbatim reason
strings. -/
def validateCustomShortcode (shortcode : String) : ShortcodeValidationResult :=
  if (cleanedOf shortcode).toList.length = 0 then
    ⟨false, some "Shortcode is required."⟩
  else if (cleanedOf shortcode).toList.length < MIN_CUSTOM_LENGTH then
    ⟨false, some "Shortcode must be at least 3 characters."⟩
  else if (cleanedOf shortcode).toList.length > MAX_CUSTOM_LENGTH then
    ⟨false, some "Shortcode must be 30 characters or fewer."⟩
  else if ¬(matchesCustomPattern (cleanedOf shortcode) = true) then
    ⟨false, some "Only lowercase letters, numbers, and hyphens allowed. Must start and end with a letter or number."⟩
  else if containsDoubleHyphen (cleanedOf shortcode).toList then
    ⟨false, some "Shortcode cannot contain consecutive hyphens."⟩
  else if (cleanedOf shortcode) ∈ RESERVED_SHORTCODES then
    ⟨false, some ("\"" ++ (cleanedOf shortcode) ++ "\" is reserved and cannot be used.")⟩
  else
    ⟨true, none⟩

/-- Reference validator following the words of the claim: the rules are
applied in the order non-empty, length within `[3, 30]`, pattern, no
consecutive hyphens, not reserved, first failure winning, each failure
carrying its specific reason string (the length rule reporting its lower
or upper bound according to which side failed). -/
def specValidate (shortcode : String) : ShortcodeValidationResult :=
  if (cleanedOf shortcode).toList.length = 0 then
    ⟨false, some "Shortcode is required."⟩
  else if ¬(MIN_CUSTOM_LENGTH ≤ (cleanedOf shortcode).toList.length ∧
            (cleanedOf shortcode).toList.length ≤ MAX_CUSTOM_LENGTH) then
    if (cleanedOf shortcode).toList.length < MIN_CUSTOM_LENGTH then
      ⟨false, some "Shortcode must be at least 3 characters."⟩
    else
      ⟨false, some "Shortcode must be 30 characters or fewer."⟩
  else if ¬(matchesCustomPattern (cleanedOf shortcode) = true) then
    ⟨false, some "Only lowercase letters, numbers, and hyphens allowed. Must start and end with a letter or number."⟩
  else if containsDoubleHyphen (cleanedOf shortcode).toList then
    ⟨false, some "Shortcode cannot contain consecutive hyphens."⟩
  else if (cleanedOf shortcode) ∈ RESERVED_SHORTCODES then
    ⟨false, some ("\"" ++ (cleanedOf shortcode) ++ "\" is reserved and cannot be used.")⟩
  else
    ⟨true, none⟩

-- ===========================================================================
-- Rate limiter (app/lib/rate-limit.ts)
-- ===========================================================================

/-- `MAX_ANONYMOUS_URLS_PER_DAY` of rate-limit.ts. -/
def MAX_ANONYMOUS_URLS_PER_DAY : Nat := 5

/-- The KV namespace: keys to stored string values.  Per-key TTL is garbage
collection only (the calendar day is part of the key), so it is not part
of the model. -/
def KvStore := String → Option String

/-- The empty KV namespace. -/
def emptyKv : KvStore := fun _ => none

/-- `kv.get`. -/
def kvGet (kv : KvStore) (key : String) : Option String := kv key

/-- `kv.put` (the TTL argument being garbage collection only). -/
def kvPut (kv : KvStore) (key value : String) : KvStore :=
  fun k => if k = key then some value else kv k

/-- `buildKey` of rate-limit.ts, with the current UTC calendar day supplied
by the caller: `"ratelimit:{ip}:{YYYY-MM-DD}"`. -/
def buildKey (clientIp today : String) : String :=
  "ratelimit" ++ ":" ++ clientIp ++ ":" ++ today

/-- Base-10 digit accumulation of `parseInt`. -/
def parseDigits : List Char → Nat → Option Nat
  | [], acc => some acc
  | c :: rest, acc =>
    if '0' ≤ c ∧ c ≤ '9' then parseDigits rest (acc * 10 + (c.toNat - '0'.toNat))
    else none

/-- JavaScript `parseInt(raw, 10)` on the canonical decimal numerals this
module writes (`String(newCount)`); other strings never occur in the keys
this module reads. -/
def parseCount (raw : String) : Nat := (parseDigits raw.toList 0).getD 0

/-- The counter value read by both rate-limit operations:
`currentCountRaw ? parseInt(currentCountRaw, 10) : 0`. -/
def readCount (kv : KvStore) (key : String) : Nat :=
  match kvGet kv key with
  | none => 0
  | some raw => parseCount raw

/-- `RateLimitResult` of rate-limit.ts. -/
structure RateLimitResult where
  allowed : Bool
  remaining : Int
  error : Option String
  deriving DecidableEq, Repr

/-- `checkRateLimit` of rate-limit.ts.  It performs only a `kv.get`, so the
state component of the result is the input store. -/
def checkRateLimit (kv : KvStore) (clientIp today : String) : RateLimitResult × KvStore :=
  let key := buildKey clientIp today
  let currentCount := readCount kv key
  if currentCount ≥ MAX_ANONYMOUS_URLS_PER_DAY then
    (⟨false, 0, some "Daily limit reached (5 URLs per day). Sign up for a free account to get 10 permanent URLs."⟩, kv)
  else
    (⟨true, (MAX_ANONYMOUS_URLS_PER_DAY : Int) - currentCount, none⟩, kv)

/-- `incrementRateLimit` of rate-limit.ts: read, add one, write back, and
return the new remaining count. -/
def incrementRateLimit (kv : KvStore) (clientIp today : String) : Int × KvStore :=
  let key := buildKey clientIp today
  let currentCount := readCount kv key
  let newCount := currentCount + 1
  ((MAX_ANONYMOUS_URLS_PER_DAY : Int) - newCount, kvPut kv key (toString newCount))

/-- The store after `n` increments for one source on one day, used to state
the check/increment cycles of the claim. -/
def iterIncrement (kv : KvStore) (clientIp today : String) : Nat → KvStore
  | 0 => kv
  | n + 1 => (incrementRateLimit (iterIncrement kv clientIp today n) clientIp today).2

-- ===========================================================================
-- Redirect handler and click recording (workers/redirect.ts)
-- ===========================================================================

/-- The 302 response `Response.redirect(urlRecord.originalUrl, 302)`. -/
structure RedirectResponse where
  status : Nat
  location : String
  deriving DecidableEq, Repr

/-- `trackClick(...).catch(error => console.error(...))`: a failed click
recording is logged and swallowed, a successful one passes through, so the
background task settles successfully either way. -/
def catchClick (clickResult : Except String Unit) : Except String Unit :=
  match clickResult with
  | Except.ok u => Except.ok u
  | Except.error _ => Except.ok ()

/-- The observable outcome of `handleRedirect`: the response handed to the
caller (none defers to React Router) and, when a redirect was produced,
the settled outcome of the `ctx.waitUntil` background task. -/
structure HandleRedirectResult where
  response : Option RedirectResponse
  background : Option (Except String Unit)
  deriving Repr

/-- `handleRedirect` of workers/redirect.ts: the GET guard, the parse, the
lookup, the 302 redirect, and the fire-and-forget click recording whose
outcome (`clickResult`: success, a store failure, or any other raised
error) is an input of the model. -/
def handleRedirect (method hostname pathname rootDomain : String) (db : UrlDb)
    (now : Nat) (clickResult : Except String Unit) : HandleRedirectResult :=
  if method ≠ "GET" then ⟨none, none⟩
  else
    match parseShortUrl hostname pathname rootDomain with
    | none => ⟨none, none⟩
    | some parsed =>
      match lookupUrl db parsed.shortcode parsed.subdomain now with
      | none => ⟨none, none⟩
      | some (_, originalUrl) =>
        ⟨some ⟨302, originalUrl⟩, some (catchClick clickResult)⟩

-- ===========================================================================
-- The dashboard create action as concurrent store operations
-- (app/routes/dashboard.create.tsx)
-- ===========================================================================

/-- One create request of the dashboard action: the owner, the resolved
shortcode (auto-generated or validated custom), the destination and the
target partition. -/
structure CreateClient where
  userId : String
  shortcode : String
  originalUrl : String
  subdomain : Option String
  deriving DecidableEq, Repr

/-- Where a create request stands between its store round trips. -/
inductive CreatePhase where
  | atCountQuery
  | atInsert
  | finished
  deriving DecidableEq, Repr

/-- The caller-visible outcome of the create action. -/
inductive CreateOutcome where
  | created
  | limitRejected
  | conflictRejected
  deriving DecidableEq, Repr

/-- The per-request state of the dashboard create action. -/
structure CreateRun where
  phase : CreatePhase
  savedCount : Nat
  outcome : Option CreateOutcome
  deriving DecidableEq, Repr

/-- A create request before its first store round trip. -/
def initialCreateRun : CreateRun := ⟨CreatePhase.atCountQuery, 0, none⟩

/-- One store round trip of the dashboard create action
(dashboard.create.tsx): first the `SELECT COUNT(*)` (the action remembers
the result), then — in a separate statement — the application-level limit
check on the remembered count followed by the plain
`INSERT INTO urls ... VALUES ...`.  The action's intermediate reads (user
subdomain, shortcode uniqueness pre-check) write nothing and are elided;
the clients carry distinct auto-generated shortcodes. -/
def createStep (maxUrls : Nat) (c : CreateClient) (s : CreateRun) (db : UrlDb) :
    CreateRun × UrlDb :=
  match s.phase with
  | CreatePhase.atCountQuery =>
    (⟨CreatePhase.atInsert, countByUser db c.userId, s.outcome⟩, db)
  | CreatePhase.atInsert =>
    if s.savedCount ≥ maxUrls then
      (⟨CreatePhase.finished, s.savedCount, some CreateOutcome.limitRejected⟩, db)
    else
      match insertUrl db (some c.userId) c.shortcode c.originalUrl c.subdomain none with
      | Except.ok db' =>
        (⟨CreatePhase.finished, s.savedCount, some CreateOutcome.created⟩, db')
      | Except.error _ =>
        (⟨CreatePhase.finished, s.savedCount, some CreateOutcome.conflictRejected⟩, db)
  | CreatePhase.finished => (s, db)

/-- Two concurrent create requests over the shared store. -/
structure TwoClientState where
  runA : CreateRun
  runB : CreateRun
  db : UrlDb
  deriving DecidableEq, Repr

/-- Let client A (`true`) or client B (`false`) perform its next store round
trip. -/
def twoClientStep (maxUrls : Nat) (a b : CreateClient) (pick : Bool)
    (st : TwoClientState) : TwoClientState :=
  if pick then
    let next := createStep maxUrls a st.runA st.db
    ⟨next.1, st.runB, next.2⟩
  else
    let next := createStep maxUrls b st.runB st.db
    ⟨st.runA, next.1, next.2⟩

/-- Run two concurrent create requests under a given interleaving of their
store round trips. -/
def runTwoClients (maxUrls : Nat) (a b : CreateClient) (schedule : List Bool)
    (db : UrlDb) : TwoClientState :=
  schedule.foldl (fun st pick => twoClientStep maxUrls a b pick st)
    ⟨initialCreateRun, initialCreateRun, db⟩

-- ===========================================================================
-- Shortest-path auto-creation (qr-shortest.ts)
-- ===========================================================================

/-- `SITE_DOMAIN` of app/lib/constants.ts (the build-time default). -/
def SITE_DOMAIN : String := "localhost"

/-- The url-limit message of qr-shortest.ts, rendered for a given limit. -/
def limitMessage (maxUrls : Nat) : String :=
  "You\x27ve reached the " ++ toString maxUrls ++
    "-URL limit. Delete a URL before auto-creating a short version."

/-- `UrlRecord` of qr-shortest.ts. -/
structure UrlRecord where
  id : Nat
  shortcode : String
  original_url : String
  subdomain : Option String
  deriving DecidableEq, Repr

/-- `ShortestUrlResult` of qr-shortest.ts. -/
structure ShortestUrlResult where
  encodedUrl : String
  autoCreated : Bool
  error : Option String
  deriving DecidableEq, Repr

/-- `resolveShortestUrl` of qr-shortest.ts: return a short-format URL
unchanged; otherwise reuse an existing same-owner global row with the same
destination; otherwise, after the limit pre-check on the caller-supplied
count, reuse the branded shortcode if globally free, else generate a fresh
one; finally insert through the atomic quota-conditional insert,
translating a uniqueness violation to a conflict message and zero changes
to the limit message. -/
def resolveShortestUrl (db : UrlDb) (userId : String) (urlRecord : UrlRecord)
    (currentUrlCount maxUrls : Nat) (rnd : Nat → List Nat) :
    ShortestUrlResult × UrlDb :=
  match urlRecord.subdomain with
  | none => (⟨SITE_DOMAIN ++ "/" ++ urlRecord.shortcode, false, none⟩, db)
  | some _ =>
    match db.find? (fun r => r.subdomain == (none : Option String) &&
        r.original_url == urlRecord.original_url && r.user_id == some userId) with
    | some existingShortUrl =>
      (⟨SITE_DOMAIN ++ "/" ++ existingShortUrl.shortcode, false, none⟩, db)
    | none =>
      if currentUrlCount ≥ maxUrls then
        (⟨"", false, some (limitMessage maxUrls)⟩, db)
      else
        match (if db.any (fun r =>
              normSubdomain r.subdomain == "" && r.shortcode == urlRecord.shortcode) then
            generateUniqueShortcode db none rnd
          else some urlRecord.shortcode : Option String) with
        | none =>
          (⟨"", false, some "Failed to generate a unique shortcode. Please try again."⟩, db)
        | some newShortcode =>
          match insertIfUnderQuota db userId newShortcode urlRecord.original_url maxUrls with
          | Except.error _ =>
            (⟨"", false, some "Shortcode conflict. Please try again."⟩, db)
          | Except.ok (db', changes) =>
            if changes = 0 then (⟨"", false, some (limitMessage maxUrls)⟩, db')
            else (⟨SITE_DOMAIN ++ "/" ++ newShortcode, true, none⟩, db')

/-- Reference for the shortest-path auto-creation following the words of the
claim, steps (1)-(4) only: (1) an already-global source is returned
unchanged; (2) an existing global mapping of the same owner with the
identical destination is reused; (3) the new global mapping reuses the
source identifier if free in the global partition, else a freshly
generated identifier; (4) the insert is an atomic quota-enforcing
conditional insert, zero affected rows reported as quota exceeded and a
uniqueness violation as an identifier conflict. -/
def specShortestSteps (db : UrlDb) (userId : String) (urlRecord : UrlRecord)
    (maxUrls : Nat) (rnd : Nat → List Nat) : ShortestUrlResult × UrlDb :=
  match urlRecord.subdomain with
  | none => (⟨SITE_DOMAIN ++ "/" ++ urlRecord.shortcode, false, none⟩, db)
  | some _ =>
    match db.find? (fun r => r.subdomain == (none : Option String) &&
        r.original_url == urlRecord.original_url && r.user_id == some userId) with
    | some existingShortUrl =>
      (⟨SITE_DOMAIN ++ "/" ++ existingShortUrl.shortcode, false, none⟩, db)
    | none =>
      match (if db.any (fun r =>
            normSubdomain r.subdomain == "" && r.shortcode == urlRecord.shortcode) then
          generateUniqueShortcode db none rnd
        else some urlRecord.shortcode : Option String) with
      | none =>
        (⟨"", false, some "Failed to generate a unique shortcode. Please try again."⟩, db)
      | some newShortcode =>
        match insertIfUnderQuota db userId newShortcode urlRecord.original_url maxUrls with
        | Except.error _ =>
          (⟨"", false, some "Shortcode conflict. Please try again."⟩, db)
        | Except.ok (db', changes) =>
          if changes = 0 then (⟨"", false, some (limitMessage maxUrls)⟩, db')
          else (⟨SITE_DOMAIN ++ "/" ++ newShortcode, true, none⟩, db')

/-- The reference of `specShortestSteps` amended as the code forces: between
steps (2) and (3) a non-atomic limit pre-check on the owner's current
count may already report quota exceeded (so with a full quota the quota
message takes precedence over generator exhaustion and no insert is
attempted). -/
def specShortestStepsAmended (db : UrlDb) (userId : String) (urlRecord : UrlRecord)
    (maxUrls : Nat) (rnd : Nat → List Nat) : ShortestUrlResult × UrlDb :=
  match urlRecord.subdomain with
  | none => (⟨SITE_DOMAIN ++ "/" ++ urlRecord.shortcode, false, none⟩, db)
  | some _ =>
    match db.find? (fun r => r.subdomain == (none : Option String) &&
        r.original_url == urlRecord.original_url && r.user_id == some userId) with
    | some existingShortUrl =>
      (⟨SITE_DOMAIN ++ "/" ++ existingShortUrl.shortcode, false, none⟩, db)
    | none =>
      if countByUser db userId ≥ maxUrls then
        (⟨"", false, some (limitMessage maxUrls)⟩, db)
      else
        match (if db.any (fun r =>
              normSubdomain r.subdomain == "" && r.shortcode == urlRecord.shortcode) then
            generateUniqueShortcode db none rnd
          else some urlRecord.shortcode : Option String) with
        | none =>
          (⟨"", false, some "Failed to generate a unique shortcode. Please try again."⟩, db)
        | some newShortcode =>
          match insertIfUnderQuota db userId newShortcode urlRecord.original_url maxUrls with
          | Except.error _ =>
            (⟨"", false, some "Shortcode conflict. Please try again."⟩, db)
          | Except.ok (db', changes) =>
            if changes = 0 then (⟨"", false, some (limitMessage maxUrls)⟩, db')
            else (⟨SITE_DOMAIN ++ "/" ++ newShortcode, true, none⟩, db')

-- ===========================================================================
-- Concrete sample data for witnesses and counterexamples
-- ===========================================================================

/-- A global-namespace mapping `(id="abc", partition=none)`. -/
def rowAbcGlobal : UrlRow := ⟨0, some "u1", "abc", "https://dest.example/page", none, none⟩

/-- The same identifier under partition `"foo"`. -/
def rowAbcFoo : UrlRow := ⟨1, some "u2", "abc", "https://dest.example/other", some "foo", none⟩

/-- Two create requests of the same owner with distinct auto-generated
shortcodes. -/
def clientA : CreateClient := ⟨"u1", "aaaaaa", "https://a.example", none⟩

/-- See `clientA`. -/
def clientB : CreateClient := ⟨"u1", "bbbbbb", "https://b.example", none⟩

/-- The interleaving where both requests run their count query before either
insert. -/
def raceSchedule : List Bool := [true, false, true, false]

/-- A store where owner `u` holds one (branded) row, the branded shortcode
`page` is globally taken by another owner, and so is every candidate the
colliding random source can produce. -/
def sampleShortestDb : UrlDb :=
  [⟨0, some "other", "page", "https://d1", none, none⟩,
   ⟨1, some "other", "aaaaaa", "https://d2", none, none⟩,
   ⟨2, some "u", "page", "https://dest", some "step", none⟩]

/-- The branded source mapping of `sampleShortestDb`. -/
def sampleShortestRecord : UrlRecord := ⟨2, "page", "https://dest", some "step"⟩

/-- A random source whose every draw produces the candidate `aaaaaa`. -/
def collidingRnd : Nat → List Nat := fun _ => [0, 0, 0, 0, 0, 0]

/-- A mapping expiring at store time 100. -/
def expiringRow : UrlRow := ⟨0, none, "abc", "https://dest.example/page", none, some 100⟩

/-- A store holding one unexpired global mapping. -/
def sampleRedirectDb : UrlDb := [⟨0, none, "abc123", "https://dest.example/page", none, none⟩]

/-- Bytes whose `CHARSET` images spell `signup`. -/
def signupBytes : List Nat := [18, 8, 6, 13, 20, 15]

-- ===========================================================================
-- Helper lemmas
-- ===========================================================================

theorem countByUser_append_single (db : UrlDb) (r : UrlRow) (u : String) :
    countByUser (db ++ [r]) u =
      countByUser db u + (if r.user_id == some u then 1 else 0) := by
  simp only [countByUser, List.filter_append]
  rw [List.length_append]
  congr 1
  by_cases h : r.user_id == some u <;> simp [h]

theorem insertUrl_ok_unique {db : UrlDb} {u : Option String} {sc url : String}
    {sd : Option String} {e : Option Nat} {db' : UrlDb}
    (hok : insertUrl db u sc url sd e = Except.ok db') (h : uniqueIndexOk db) :
    uniqueIndexOk db' := by
  unfold insertUrl at hok
  split at hok
  · cases hok
  · rename_i hany
    injection hok with hdb
    subst hdb
    rw [uniqueIndexOk, List.pairwise_append]
    refine ⟨h, List.pairwise_singleton _ _, ?_⟩
    intro a ha b hb
    simp only [List.mem_singleton] at hb
    subst hb
    rw [List.any_eq_true] at hany
    push_neg at hany
    intro hcontra
    exact hany a ha (by
      simp only [Bool.and_eq_true, beq_iff_eq]
      exact ⟨hcontra.1, hcontra.2⟩)

theorem insertIfUnderQuota_ok_unique {db : UrlDb} {userId sc url : String}
    {maxUrls : Nat} {db' : UrlDb} {n : Nat}
    (hok : insertIfUnderQuota db userId sc url maxUrls = Except.ok (db', n))
    (h : uniqueIndexOk db) : uniqueIndexOk db' := by
  unfold insertIfUnderQuota at hok
  split at hok
  · cases hins : insertUrl db (some userId) sc url none none with
    | ok dbi =>
      rw [hins] at hok
      injection hok with hpair
      have hd : db' = dbi := by
        have := congrArg Prod.fst hpair
        simpa using this.symm
      subst hd
      exact insertUrl_ok_unique hins h
    | error e =>
      rw [hins] at hok
      cases hok
  · injection hok with hpair
    have hd : db' = db := by
      have := congrArg Prod.fst hpair
      simpa using this.symm
    subst hd
    exact h

theorem resolveShortestUrl_unique {db : UrlDb} {userId : String} {urlRecord : UrlRecord}
    {currentUrlCount maxUrls : Nat} {rnd : Nat → List Nat} {res : ShortestUrlResult}
    {db' : UrlDb}
    (hrun : resolveShortestUrl db userId urlRecord currentUrlCount maxUrls rnd = (res, db'))
    (h : uniqueIndexOk db) : uniqueIndexOk db' := by
  unfold resolveShortestUrl at hrun
  split at hrun
  · injection hrun with h1 h2
    subst h2
    exact h
  · split at hrun
    · injection hrun with h1 h2
      subst h2
      exact h
    · split at hrun
      · injection hrun with h1 h2
        subst h2
        exact h
      · split at hrun
        · injection hrun with h1 h2
          subst h2
          exact h
        · split at hrun
          · injection hrun with h1 h2
            subst h2
            exact h
          · rename_i newShortcode hnew dbn changes hq
            split at hrun
            · injection hrun with h1 h2
              subst h2
              exact insertIfUnderQuota_ok_unique hq h
            · injection hrun with h1 h2
              subst h2
              exact insertIfUnderQuota_ok_unique hq h

-- ===========================================================================
-- C1
-- ===========================================================================

/-- C1: no two rows of the store share the pair of normalized partition and
identifier (an absent partition normalized to the empty string); every
allocation operation — the plain insert, the atomic conditional insert and
the shortest-path auto-creation — preserves this invariant; once a mapping
`(id="abc", partition=none)` exists, inserting `(id="abc", partition=none)`
again fails with a uniqueness conflict, while `(id="abc", partition="foo")`
can coexist. -/
theorem C1_partition_identifier_uniqueness :
    (∀ db user_id shortcode original_url subdomain expires_at db',
        uniqueIndexOk db →
        insertUrl db user_id shortcode original_url subdomain expires_at = Except.ok db' →
        uniqueIndexOk db') ∧
    (∀ db userId shortcode original_url maxUrls db' n,
        uniqueIndexOk db →
        insertIfUnderQuota db userId shortcode original_url maxUrls = Except.ok (db', n) →
        uniqueIndexOk db') ∧
    (∀ db userId urlRecord currentUrlCount maxUrls rnd res db',
        uniqueIndexOk db →
        resolveShortestUrl db userId urlRecord currentUrlCount maxUrls rnd = (res, db') →
        uniqueIndexOk db') ∧
    (∀ (db : UrlDb) (r : UrlRow), r ∈ db → r.shortcode = "abc" → r.subdomain = none →
        ∀ u url e, insertUrl db u "abc" url none e =
          Except.error D1Error.uniqueConstraintFailed) ∧
    (insertUrl [rowAbcGlobal] (some "u2") "abc" "https://dest.example/other" (some "foo") none =
        Except.ok [rowAbcGlobal, rowAbcFoo] ∧ uniqueIndexOk [rowAbcGlobal, rowAbcFoo]) := by
  refine ⟨?_, ?_, ?_, ?_, ?_, ?_⟩
  · intro db u sc url sd e db' h hok
    exact insertUrl_ok_unique hok h
  · intro db userId sc url maxUrls db' n h hok
    exact insertIfUnderQuota_ok_unique hok h
  · intro db userId urlRecord cnt maxUrls rnd res db' h hrun
    exact resolveShortestUrl_unique hrun h
  · intro db r hmem hsc hsd u url e
    unfold insertUrl
    rw [if_pos]
    rw [List.any_eq_true]
    exact ⟨r, hmem, by simp [hsd, hsc, normSubdomain]⟩
  · rfl
  · unfold uniqueIndexOk
    decide

/-- Concrete instantiation of `C1_partition_identifier_uniqueness`: inserting
into the empty store yields a store satisfying the invariant. -/
theorem C1_partition_identifier_uniqueness_witness : uniqueIndexOk [rowAbcGlobal] :=
  C1_partition_identifier_uniqueness.1 [] (some "u1") "abc" "https://dest.example/page"
    none none [rowAbcGlobal] (by unfold uniqueIndexOk; exact List.Pairwise.nil) rfl

-- ===========================================================================
-- C2
-- ===========================================================================

/-- C2 counterexample: the dashboard create action enforces the quota with a
separate count query followed by a plain insert, so under the interleaving
where both of two simultaneous requests of one owner (quota 1, zero
existing mappings) run their count query before either insert, both
succeed and the owner ends up with two mappings — refuting both the
"exactly one success" and the "single atomic conditional insert" parts of
the claim for this allocation path. -/
theorem C2_counterexample :
    (runTwoClients 1 clientA clientB raceSchedule []).runA.outcome =
        some CreateOutcome.created ∧
    (runTwoClients 1 clientA clientB raceSchedule []).runB.outcome =
        some CreateOutcome.created ∧
    countByUser (runTwoClients 1 clientA clientB raceSchedule []).db "u1" = 2 := by
  refine ⟨by decide, by decide, by decide⟩

/-- C2 amended: the atomic quota-conditional insert used by the shortest-path
auto-creation does guarantee the claimed outcome: it re-evaluates the
owner's count inside the single conditional statement, an owner at or over
quota always gets zero affected rows with the store unchanged, and of two
attempts for an owner with quota 1 and no existing mappings the first
succeeds and the second is rejected with zero affected rows.  The
dashboard create route, by contrast, uses the separate count-then-insert
pair refuted above. -/
theorem C2_atomic_conditional_insert_quota :
    (∀ db userId shortcode original_url maxUrls,
        countByUser db userId ≥ maxUrls →
        insertIfUnderQuota db userId shortcode original_url maxUrls =
          Except.ok (db, 0)) ∧
    (∀ db userId sc1 url1 sc2 url2,
        countByUser db userId = 0 →
        checkShortcodeExists db sc1 none = false →
        ∃ db1, insertIfUnderQuota db userId sc1 url1 1 = Except.ok (db1, 1) ∧
          countByUser db1 userId = 1 ∧
          insertIfUnderQuota db1 userId sc2 url2 1 = Except.ok (db1, 0)) := by
  constructor
  · intro db userId sc url maxUrls hge
    unfold insertIfUnderQuota
    rw [if_neg]
    omega
  · intro db userId sc1 url1 sc2 url2 hcnt hfree
    have hins : insertUrl db (some userId) sc1 url1 none none =
        Except.ok (db ++ [⟨db.length, some userId, sc1, url1, none, none⟩]) := by
      unfold insertUrl
      rw [if_neg]
      rw [show (db.any fun r =>
          normSubdomain r.subdomain == normSubdomain none && r.shortcode == sc1) =
          checkShortcodeExists db sc1 none from rfl]
      simp [hfree]
    refine ⟨db ++ [⟨db.length, some userId, sc1, url1, none, none⟩], ?_, ?_, ?_⟩
    · unfold insertIfUnderQuota
      rw [if_pos (by omega)]
      rw [hins]
    · rw [countByUser_append_single, hcnt]
      simp
    · unfold insertIfUnderQuota
      rw [if_neg]
      rw [countByUser_append_single, hcnt]
      simp

/-- Concrete instantiation of `C2_atomic_conditional_insert_quota`: from the
empty store, the first conditional insert for owner `u1` under quota 1
affects one row and leaves the owner holding one mapping. -/
theorem C2_atomic_conditional_insert_quota_witness :
    ∃ db1, insertIfUnderQuota [] "u1" "aaaaaa" "https://a.example" 1 =
        Except.ok (db1, 1) ∧
      countByUser db1 "u1" = 1 ∧
      insertIfUnderQuota db1 "u1" "bbbbbb" "https://b.example" 1 =
        Except.ok (db1, 0) :=
  C2_atomic_conditional_insert_quota.2 [] "u1" "aaaaaa" "https://a.example"
    "bbbbbb" "https://b.example" rfl rfl

-- ===========================================================================
-- C3
-- ===========================================================================

theorem extractSubdomain_none_of_root {hostname rootDomain : String}
    (h : hostname = rootDomain ∨ hostname = "localhost") :
    extractSubdomain hostname rootDomain = none := by
  unfold extractSubdomain
  rcases h with h | h
  · subst h
    split
    · rfl
    · simp
  · subst h
    simp

theorem extractSubdomain_of_sub {hostname rootDomain : String}
    (h1 : ¬(hostname = "localhost" ∨ hostname = "127.0.0.1"))
    (h2 : hostname ≠ rootDomain)
    (h3 : strEndsWith hostname ("." ++ rootDomain) = true) :
    extractSubdomain hostname rootDomain =
      some (strTake hostname (hostname.toList.length - rootDomain.toList.length - 1)) := by
  unfold extractSubdomain
  rw [if_neg h1, if_neg h2, if_pos h3]

theorem extractSubdomain_none_of_other {hostname rootDomain : String}
    (h1 : ¬(hostname = "localhost" ∨ hostname = "127.0.0.1"))
    (h2 : hostname ≠ rootDomain)
    (h3 : ¬ strEndsWith hostname ("." ++ rootDomain) = true) :
    extractSubdomain hostname rootDomain = none := by
  unfold extractSubdomain
  rw [if_neg h1, if_neg h2, if_neg h3]

/-- C3 counterexample: at method GET, host `127.0.0.1`, path `/abc` and root
domain `1`, the code classifier yields "not a lookup" while the claim's
reference definition yields the identifier `abc` under partition
`127.0.0`, so the classifier does not equal the reference. -/
theorem C3_counterexample :
    classifyRequest "GET" "127.0.0.1" "/abc" "1" = none ∧
    specClassify "GET" "127.0.0.1" "/abc" "1" = some ⟨"abc", some "127.0.0"⟩ ∧
    classifyRequest "GET" "127.0.0.1" "/abc" "1" ≠
      specClassify "GET" "127.0.0.1" "/abc" "1" := by
  refine ⟨by decide, by decide, by decide⟩

/-- C3 amended: the classifier equals the reference definition amended with a
second local-development special case: the host `127.0.0.1` never yields a
partition, so it is a lookup host only when it is exactly the configured
root domain. -/
theorem C3_classifier_equals_amended_reference
    (method hostname pathname rootDomain : String) :
    classifyRequest method hostname pathname rootDomain =
      specClassifyAmended method hostname pathname rootDomain := by
  unfold classifyRequest specClassifyAmended parseShortUrl
  by_cases hm : method ≠ "GET"
  · rw [if_pos hm, if_pos hm]
  · rw [if_neg hm, if_neg hm]
    cases hseg : pathSegmentsOf pathname with
    | nil => rfl
    | cons c rest =>
      by_cases hres : c ∈ RESERVED_PATHS
      · simp [hres]
      · by_cases hRoot : hostname = rootDomain ∨ hostname = "localhost"
        · have hx := extractSubdomain_none_of_root hRoot
          simp [hres, hRoot, hx]
        · by_cases h127 : hostname = "127.0.0.1"
          · subst h127
            have hx : extractSubdomain "127.0.0.1" rootDomain = none := by
              unfold extractSubdomain
              rw [if_pos (Or.inr rfl)]
            have hnr : ¬("127.0.0.1" = rootDomain) := by
              push_neg at hRoot
              exact hRoot.1
            simp [hres, hx, hnr]
          · have hnl : ¬(hostname = "localhost" ∨ hostname = "127.0.0.1") := by
              push_neg
              push_neg at hRoot
              exact ⟨hRoot.2, h127⟩
            have hnr : hostname ≠ rootDomain := by
              push_neg at hRoot
              exact hRoot.1
            by_cases hE : strEndsWith hostname ("." ++ rootDomain) = true
            · have hx := extractSubdomain_of_sub hnl hnr hE
              by_cases hRS :
                  strTake hostname (hostname.toList.length - rootDomain.toList.length - 1) ∈
                    RESERVED_SUBDOMAINS
              · simp [hres, hRoot, h127, hx, hE, hRS]
              · simp [hres, hRoot, h127, hx, hE, hRS]
            · have hx := extractSubdomain_none_of_other hnl hnr hE
              simp [hres, hRoot, h127, hx, hE]

-- ===========================================================================
-- C4
-- ===========================================================================

theorem expiresOk_iff {r : UrlRow} {now : Nat} :
    expiresOk r now = true ↔
      (r.expires_at = none ∨ ∃ t, r.expires_at = some t ∧ now < t) := by
  unfold expiresOk
  cases h : r.expires_at with
  | none => simp
  | some t => simp [h]

/-- C4: the resolver returns a stored destination exactly when a row matches
the identifier and partition and its expiration is absent or strictly in
the future on the store clock; the value returned comes from such a row; a
lookup leaves the store unchanged; and at the boundary a mapping expiring
exactly now resolves as not found while one expiring one tick later
resolves successfully. -/
theorem C4_resolver_strict_expiration :
    (∀ db sc sd now, (lookupUrl db sc sd now).isSome = true ↔
      ∃ r ∈ db, r.subdomain = sd ∧ r.shortcode = sc ∧
        (r.expires_at = none ∨ ∃ t, r.expires_at = some t ∧ now < t)) ∧
    (∀ db sc sd now p, lookupUrl db sc sd now = some p →
      ∃ r ∈ db, r.subdomain = sd ∧ r.shortcode = sc ∧
        (r.expires_at = none ∨ ∃ t, r.expires_at = some t ∧ now < t) ∧
        p = (r.rowId, r.original_url)) ∧
    (∀ db sc sd now, (lookupUrlOp db sc sd now).2 = db) ∧
    lookupUrl [expiringRow] "abc" none 100 = none ∧
    lookupUrl [expiringRow] "abc" none 99 = some (0, "https://dest.example/page") := by
  refine ⟨?_, ?_, ?_, by decide, by decide⟩
  · intro db sc sd now
    cases sd with
    | none =>
      simp [lookupUrl, List.find?_isSome, Bool.and_eq_true, beq_iff_eq, expiresOk_iff,
        and_assoc]
    | some s =>
      simp [lookupUrl, List.find?_isSome, Bool.and_eq_true, beq_iff_eq, expiresOk_iff,
        and_assoc]
  · intro db sc sd now p h
    cases sd with
    | none =>
      unfold lookupUrl at h
      simp only [Option.map_eq_some'] at h
      obtain ⟨r, hfind, hp⟩ := h
      have hmem := List.mem_of_find?_eq_some hfind
      have hpred := List.find?_some hfind
      simp only [Bool.and_eq_true, beq_iff_eq] at hpred
      exact ⟨r, hmem, hpred.1.1, hpred.1.2, expiresOk_iff.mp hpred.2, hp.symm⟩
    | some s =>
      unfold lookupUrl at h
      simp only [Option.map_eq_some'] at h
      obtain ⟨r, hfind, hp⟩ := h
      have hmem := List.mem_of_find?_eq_some hfind
      have hpred := List.find?_some hfind
      simp only [Bool.and_eq_true, beq_iff_eq] at hpred
      exact ⟨r, hmem, hpred.1.1, hpred.1.2, expiresOk_iff.mp hpred.2, hp.symm⟩
  · intro db sc sd now
    rfl

/-- Concrete instantiation of `C4_resolver_strict_expiration`: the successful
lookup one tick before expiry is backed by the stored row. -/
theorem C4_resolver_strict_expiration_witness :
    ∃ r ∈ [expiringRow], r.subdomain = none ∧ r.shortcode = "abc" ∧
      (r.expires_at = none ∨ ∃ t, r.expires_at = some t ∧ 99 < t) ∧
      ((0 : Nat), "https://dest.example/page") = (r.rowId, r.original_url) :=
  C4_resolver_strict_expiration.2.1 [expiringRow] "abc" none 99
    (0, "https://dest.example/page") (by decide)

-- ===========================================================================
-- C5
-- ===========================================================================

/-- C5 counterexample: the shortest-path auto-creation does not follow the
claim's steps exactly.  At a store where the owner is at quota, the
duplicate-destination search fails, the branded shortcode is globally
taken and every generated candidate collides, the code reports the
url-limit error (its non-atomic pre-check fires first) while the claim's
step order reports generator exhaustion; and step (4) is not "the same
insert as direct allocation": at the same full-quota store the direct
allocation route's plain insert still inserts a row, while the
shortest-path conditional insert affects zero rows. -/
theorem C5_counterexample :
    (resolveShortestUrl sampleShortestDb "u" sampleShortestRecord 1 1 collidingRnd).1 =
      ⟨"", false, some (limitMessage 1)⟩ ∧
    (specShortestSteps sampleShortestDb "u" sampleShortestRecord 1 collidingRnd).1 =
      ⟨"", false, some "Failed to generate a unique shortcode. Please try again."⟩ ∧
    resolveShortestUrl sampleShortestDb "u" sampleShortestRecord 1 1 collidingRnd ≠
      specShortestSteps sampleShortestDb "u" sampleShortestRecord 1 collidingRnd ∧
    countByUser sampleShortestDb "u" = 1 ∧
    insertUrl sampleShortestDb (some "u") "zzz" "https://x" none none =
      Except.ok (sampleShortestDb ++ [⟨3, some "u", "zzz", "https://x", none, none⟩]) ∧
    insertIfUnderQuota sampleShortestDb "u" "zzz" "https://x" 1 =
      Except.ok (sampleShortestDb, 0) := by
  refine ⟨by decide, by decide, by decide, by decide, rfl, rfl⟩

/-- C5 amended: when the caller-supplied current count agrees with the
store (as at the call site), the shortest-path auto-creation equals the
claim's four steps amended with the non-atomic limit pre-check between
steps (2) and (3), the insert of step (4) being the atomic
quota-conditional insert (which the direct allocation route does not
use). -/
theorem C5_shortest_path_steps (db : UrlDb) (userId : String) (urlRecord : UrlRecord)
    (currentUrlCount maxUrls : Nat) (rnd : Nat → List Nat)
    (h : currentUrlCount = countByUser db userId) :
    resolveShortestUrl db userId urlRecord currentUrlCount maxUrls rnd =
      specShortestStepsAmended db userId urlRecord maxUrls rnd := by
  subst h
  rfl

/-- Concrete instantiation of `C5_shortest_path_steps`. -/
theorem C5_shortest_path_steps_witness :
    resolveShortestUrl sampleShortestDb "u" sampleShortestRecord 1 1 collidingRnd =
      specShortestStepsAmended sampleShortestDb "u" sampleShortestRecord 1 collidingRnd :=
  C5_shortest_path_steps sampleShortestDb "u" sampleShortestRecord 1 1 collidingRnd
    (by decide)

-- ===========================================================================
-- C6
-- ===========================================================================

theorem validate_isValid_iff (s : String) :
    (validateCustomShortcode s).isValid = true ↔
      ((cleanedOf s).toList.length ≠ 0 ∧
       MIN_CUSTOM_LENGTH ≤ (cleanedOf s).toList.length ∧
       (cleanedOf s).toList.length ≤ MAX_CUSTOM_LENGTH ∧
       matchesCustomPattern (cleanedOf s) = true ∧
       containsDoubleHyphen (cleanedOf s).toList = false ∧
       cleanedOf s ∉ RESERVED_SHORTCODES) := by
  constructor
  · intro h
    unfold validateCustomShortcode at h
    split_ifs at h with h0 h1 h2 h3 h4 h5
    exact ⟨h0, not_lt.mp h1, not_lt.mp h2, h3, by simpa using h4, h5⟩
  · rintro ⟨hne, hmin, hmax, hpat, hhyp, hres⟩
    unfold validateCustomShortcode
    rw [if_neg hne, if_neg (not_lt.mpr hmin), if_neg (not_lt.mpr hmax),
      if_neg (not_not_intro hpat), if_neg (by rw [hhyp]; simp), if_neg hres]

/-- C6: the validator applies the rules in the claim's order with the first
failure winning and the verbatim reason strings — it equals the reference
rule-by-rule checker on every input — and it accepts exactly the cleaned
identifiers that pass all five rules. -/
theorem C6_validator_rules_in_order :
    (∀ s, validateCustomShortcode s = specValidate s) ∧
    (∀ s, (validateCustomShortcode s).isValid = true ↔
      ((cleanedOf s).toList.length ≠ 0 ∧
       MIN_CUSTOM_LENGTH ≤ (cleanedOf s).toList.length ∧
       (cleanedOf s).toList.length ≤ MAX_CUSTOM_LENGTH ∧
       matchesCustomPattern (cleanedOf s) = true ∧
       containsDoubleHyphen (cleanedOf s).toList = false ∧
       cleanedOf s ∉ RESERVED_SHORTCODES)) := by
  constructor
  · intro s
    unfold validateCustomShortcode specValidate
    by_cases h0 : (cleanedOf s).toList.length = 0
    · rw [if_pos h0, if_pos h0]
    · rw [if_neg h0, if_neg h0]
      by_cases h1 : (cleanedOf s).toList.length < MIN_CUSTOM_LENGTH
      · have hni : ¬(MIN_CUSTOM_LENGTH ≤ (cleanedOf s).toList.length ∧
            (cleanedOf s).toList.length ≤ MAX_CUSTOM_LENGTH) :=
          fun hc => absurd h1 (not_lt.mpr hc.1)
        rw [if_pos h1, if_pos hni, if_pos h1]
      · by_cases h2 : (cleanedOf s).toList.length > MAX_CUSTOM_LENGTH
        · have hni : ¬(MIN_CUSTOM_LENGTH ≤ (cleanedOf s).toList.length ∧
              (cleanedOf s).toList.length ≤ MAX_CUSTOM_LENGTH) :=
            fun hc => absurd h2 (not_lt.mpr hc.2)
          rw [if_neg h1, if_pos h2, if_pos hni, if_neg h1]
        · have hi : MIN_CUSTOM_LENGTH ≤ (cleanedOf s).toList.length ∧
              (cleanedOf s).toList.length ≤ MAX_CUSTOM_LENGTH :=
            ⟨not_lt.mp h1, not_lt.mp h2⟩
          rw [if_neg h1, if_neg h2, if_neg (not_not_intro hi)]
  · exact validate_isValid_iff

-- ===========================================================================
-- C7
-- ===========================================================================

/-- C7: an identifier accepted by the validator is never short-circuited by
the classifier's reserved-path check: it is not a member of the
classifier's reserved paths, and a GET request on the root domain whose
first path segment is that identifier classifies as a lookup of that
identifier in the global partition. -/
theorem C7_valid_identifier_never_reserved_path (s : String)
    (h : (validateCustomShortcode s).isValid = true) :
    cleanedOf s ∉ RESERVED_PATHS ∧
    (∀ rootDomain pathname, firstSegment pathname = some (cleanedOf s) →
      classifyRequest "GET" rootDomain pathname rootDomain =
        some ⟨cleanedOf s, none⟩) := by
  obtain ⟨hne, hmin, hmax, hpat, hhyp, hres⟩ := (validate_isValid_iff s).mp h
  have hmem : cleanedOf s ∉ RESERVED_PATHS := by
    intro hmem
    simp only [RESERVED_PATHS, List.mem_cons, List.not_mem_nil, or_false] at hmem
    rcases hmem with hm | hm | hm | hm | hm | hm
    · exact hres (by rw [hm]; decide)
    · exact hres (by rw [hm]; decide)
    · exact hres (by rw [hm]; decide)
    · exact hres (by rw [hm]; decide)
    · exact hres (by rw [hm]; decide)
    · rw [hm] at hpat
      exact absurd hpat (by decide)
  refine ⟨hmem, ?_⟩
  intro rootDomain pathname hseg
  unfold classifyRequest
  rw [if_neg (by simp)]
  unfold firstSegment at hseg
  unfold parseShortUrl
  cases hps : pathSegmentsOf pathname with
  | nil =>
    rw [hps] at hseg
    simp at hseg
  | cons c t =>
    rw [hps] at hseg
    simp only [List.head?_cons, Option.some.injEq] at hseg
    subst hseg
    have hx := extractSubdomain_none_of_root (Or.inl rfl : rootDomain = rootDomain ∨
      rootDomain = "localhost")
    simp [hmem, hx]

/-- Concrete instantiation of `C7_valid_identifier_never_reserved_path` at the
accepted identifier `my-page`. -/
theorem C7_valid_identifier_never_reserved_path_witness :
    cleanedOf "my-page" ∉ RESERVED_PATHS ∧
    classifyRequest "GET" "qrurl.dev" "/my-page" "qrurl.dev" =
      some ⟨cleanedOf "my-page", none⟩ :=
  ⟨(C7_valid_identifier_never_reserved_path "my-page" (by decide)).1,
   (C7_valid_identifier_never_reserved_path "my-page" (by decide)).2 "qrurl.dev"
     "/my-page" (by decide)⟩

-- ===========================================================================
-- C8
-- ===========================================================================

theorem kvGet_put (kv : KvStore) (k v : String) : kvGet (kvPut kv k v) k = some v := by
  simp [kvGet, kvPut]

/-- C8: the check operation never writes to the rate-limit store; starting
from no counter for a source, the five check-then-increment cycles all
check as allowed and return the strictly decreasing remaining counts
4, 3, 2, 1, 0; and the sixth check reports disallowed, again without
touching the store. -/
theorem C8_rate_limiter_daily_cycle (kv : KvStore) (ip today : String)
    (h : kvGet kv (buildKey ip today) = none) :
    (∀ kv2 ip2 today2, (checkRateLimit kv2 ip2 today2).2 = kv2) ∧
    (∀ n, n < 5 → ((checkRateLimit (iterIncrement kv ip today n) ip today).1).allowed =
      true) ∧
    (∀ n, n < 5 → (incrementRateLimit (iterIncrement kv ip today n) ip today).1 =
      4 - (n : Int)) ∧
    ((checkRateLimit (iterIncrement kv ip today 5) ip today).1).allowed = false ∧
    (checkRateLimit (iterIncrement kv ip today 5) ip today).2 =
      iterIncrement kv ip today 5 := by
  have r0 : readCount (iterIncrement kv ip today 0) (buildKey ip today) = 0 := by
    unfold iterIncrement readCount
    rw [h]
  have e1 : iterIncrement kv ip today 1 =
      kvPut (iterIncrement kv ip today 0) (buildKey ip today) "1" := by
    show (incrementRateLimit (iterIncrement kv ip today 0) ip today).2 = _
    simp only [incrementRateLimit]
    rw [r0]
    rfl
  have r1 : readCount (iterIncrement kv ip today 1) (buildKey ip today) = 1 := by
    rw [e1]
    unfold readCount
    rw [kvGet_put]
    decide
  have e2 : iterIncrement kv ip today 2 =
      kvPut (iterIncrement kv ip today 1) (buildKey ip today) "2" := by
    show (incrementRateLimit (iterIncrement kv ip today 1) ip today).2 = _
    simp only [incrementRateLimit]
    rw [r1]
    rfl
  have r2 : readCount (iterIncrement kv ip today 2) (buildKey ip today) = 2 := by
    rw [e2]
    unfold readCount
    rw [kvGet_put]
    decide
  have e3 : iterIncrement kv ip today 3 =
      kvPut (iterIncrement kv ip today 2) (buildKey ip today) "3" := by
    show (incrementRateLimit (iterIncrement kv ip today 2) ip today).2 = _
    simp only [incrementRateLimit]
    rw [r2]
    rfl
  have r3 : readCount (iterIncrement kv ip today 3) (buildKey ip today) = 3 := by
    rw [e3]
    unfold readCount
    rw [kvGet_put]
    decide
  have e4 : iterIncrement kv ip today 4 =
      kvPut (iterIncrement kv ip today 3) (buildKey ip today) "4" := by
    show (incrementRateLimit (iterIncrement kv ip today 3) ip today).2 = _
    simp only [incrementRateLimit]
    rw [r3]
    rfl
  have r4 : readCount (iterIncrement kv ip today 4) (buildKey ip today) = 4 := by
    rw [e4]
    unfold readCount
    rw [kvGet_put]
    decide
  have e5 : iterIncrement kv ip today 5 =
      kvPut (iterIncrement kv ip today 4) (buildKey ip today) "5" := by
    show (incrementRateLimit (iterIncrement kv ip today 4) ip today).2 = _
    simp only [incrementRateLimit]
    rw [r4]
    rfl
  have r5 : readCount (iterIncrement kv ip today 5) (buildKey ip today) = 5 := by
    rw [e5]
    unfold readCount
    rw [kvGet_put]
    decide
  refine ⟨?_, ?_, ?_, ?_, ?_⟩
  · intro kv2 ip2 today2
    simp only [checkRateLimit]
    split <;> rfl
  · intro n hn
    interval_cases n <;>
      simp [checkRateLimit, MAX_ANONYMOUS_URLS_PER_DAY, r0, r1, r2, r3, r4]
  · intro n hn
    interval_cases n <;>
      simp [incrementRateLimit, MAX_ANONYMOUS_URLS_PER_DAY, r0, r1, r2, r3, r4]
  · simp [checkRateLimit, MAX_ANONYMOUS_URLS_PER_DAY, r5]
  · simp [checkRateLimit, MAX_ANONYMOUS_URLS_PER_DAY, r5]

/-- Concrete instantiation of `C8_rate_limiter_daily_cycle`: the sixth check
after five increments from the empty store is disallowed. -/
theorem C8_rate_limiter_daily_cycle_witness :
    ((checkRateLimit (iterIncrement emptyKv "1.2.3.4" "2026-02-13" 5)
        "1.2.3.4" "2026-02-13").1).allowed = false :=
  (C8_rate_limiter_daily_cycle emptyKv "1.2.3.4" "2026-02-13" rfl).2.2.2.1

-- ===========================================================================
-- C9
-- ===========================================================================

/-- C9: whenever the redirect handler produces a redirect response, any error
raised in the click-recording path is caught and discarded: the response
is the same as on a successful click recording (a 302), and the background
task settles successfully, so no click-recording exception reaches the
caller. -/
theorem C9_click_recording_failure_swallowed
    (method hostname pathname rootDomain : String) (db : UrlDb) (now : Nat) (e : String) :
    (handleRedirect method hostname pathname rootDomain db now (Except.error e)).response =
      (handleRedirect method hostname pathname rootDomain db now (Except.ok ())).response ∧
    (∀ resp,
      (handleRedirect method hostname pathname rootDomain db now (Except.error e)).response =
        some resp →
      resp.status = 302 ∧
      (handleRedirect method hostname pathname rootDomain db now
          (Except.error e)).background = some (Except.ok ())) := by
  by_cases hm : method ≠ "GET"
  · simp [handleRedirect, hm]
  · cases hp : parseShortUrl hostname pathname rootDomain with
    | none => simp [handleRedirect, hm, hp]
    | some parsed =>
      cases hl : lookupUrl db parsed.shortcode parsed.subdomain now with
      | none => simp [handleRedirect, hm, hp, hl]
      | some pr =>
        obtain ⟨urlId, originalUrl⟩ := pr
        refine ⟨by simp [handleRedirect, hm, hp, hl], ?_⟩
        intro resp hresp
        simp only [handleRedirect, hm, hp, hl, if_neg hm] at hresp ⊢
        constructor
        · cases hresp
          rfl
        · rfl

/-- Concrete instantiation of `C9_click_recording_failure_swallowed`: with a
stored mapping for `abc123`, a failed click insert leaves the 302 redirect
and a successfully settled background task. -/
theorem C9_click_recording_failure_swallowed_witness :
    (⟨302, "https://dest.example/page"⟩ : RedirectResponse).status = 302 ∧
    (handleRedirect "GET" "qrurl.dev" "/abc123" "qrurl.dev" sampleRedirectDb 0
        (Except.error "boom")).background = some (Except.ok ()) :=
  (C9_click_recording_failure_swallowed "GET" "qrurl.dev" "/abc123" "qrurl.dev"
      sampleRedirectDb 0 "boom").2 ⟨302, "https://dest.example/page"⟩ rfl

-- ===========================================================================
-- C10
-- ===========================================================================

/-- C10: the auto-generator admits the output `signup` (a charset image of a
valid byte draw that collision checking against an empty store does not
filter), `signup` is in the classifier's reserved-path set, and every GET
request on the root domain whose first path segment is `signup` classifies
as "not a lookup" — so a mapping allocated under that auto-generated
identifier is unreachable through the classifier. -/
theorem C10_generated_identifier_can_be_reserved :
    generateShortcode signupBytes = "signup" ∧
    "signup" ∈ RESERVED_PATHS ∧
    generateUniqueShortcode [] none (fun _ => signupBytes) = some "signup" ∧
    (∀ rootDomain pathname, firstSegment pathname = some "signup" →
      classifyRequest "GET" rootDomain pathname rootDomain = none) := by
  refine ⟨by decide, by decide, by decide, ?_⟩
  intro rootDomain pathname hseg
  unfold classifyRequest
  rw [if_neg (by simp)]
  unfold firstSegment at hseg
  unfold parseShortUrl
  cases hps : pathSegmentsOf pathname with
  | nil =>
    rw [hps] at hseg
  | cons c t =>
    rw [hps] at hseg
    simp only [List.head?_cons, Option.some.injEq] at hseg
    subst hseg
    simp [RESERVED_PATHS]

/-- Concrete instantiation of `C10_generated_identifier_can_be_reserved`: the
root-domain request for `/signup` is not a lookup. -/
theorem C10_generated_identifier_can_be_reserved_witness :
    classifyRequest "GET" "qrurl.dev" "/signup" "qrurl.dev" = none :=
  C10_generated_identifier_can_be_reserved.2.2.2 "qrurl.dev" "/signup" (by decide)

/-- Concrete instantiation of `C3_classifier_equals_amended_reference` at a
branded-subdomain request. -/
theorem C3_classifier_equals_amended_reference_witness :
    classifyRequest "GET" "step.qrurl.dev" "/mysite" "qrurl.dev" =
      specClassifyAmended "GET" "step.qrurl.dev" "/mysite" "qrurl.dev" :=
  C3_classifier_equals_amended_reference "GET" "step.qrurl.dev" "/mysite" "qrurl.dev"

/-- Concrete instantiation of `C6_validator_rules_in_order` at an accepted
identifier. -/
theorem C6_validator_rules_in_order_witness :
    validateCustomShortcode "my-page" = specValidate "my-page" :=
  C6_validator_rules_in_order.1 "my-page"
